import Mathlib

/-!
# Keystone preflight check (tools/preflight/main.go)

A shallow embedding of the preflight tool: the report model, the runner
`runChecks`, the ten probes and the exit code computed by `main`.

Modelling conventions.

* Go strings are Lean `String`s; the `strings` functions used by the source
  (`HasPrefix`, `TrimSpace`, `Split`, `Join`) work on the character list.
* A Go `error` value is `Option GoError`, `none` being `nil`.
* A probe is a Go `func() CheckResult`; it is a function `Unit → CheckResult`.
  The probes of this program read the two package variables (`Config`) and
  the outcome of their external calls (`World`).
* The counters of the report are Go `int`s. They start at zero and are
  incremented at most `len(checks)` times in total, and `len(checks)` is
  itself an `int`, so no increment can wrap; they are unbounded `Int`s here.
* `time.Now()` is a parameter of `runChecks`.
-/

namespace Preflight

/-! ## Data model (main.go, lines 13-50) -/

/-- CheckResult represents the result of a preflight check. A field left out
of a Go composite literal has its zero value, the empty string. -/
structure CheckResult where
  Passed : Bool
  Message : String
  Details : String := ""
deriving DecidableEq, Repr

/-- PreflightCheck represents a single validation check. -/
structure PreflightCheck where
  Name : String
  Description : String
  Required : Bool
  Check : Unit → CheckResult

/-- CheckResultWithName combines check name with result. -/
structure CheckResultWithName where
  Name : String
  Required : Bool
  Result : CheckResult
deriving DecidableEq, Repr

/-- PreflightReport contains all check results. -/
structure PreflightReport where
  Timestamp : Nat
  Environment : String
  TotalChecks : Int := 0
  Passed : Int := 0
  Failed : Int := 0
  Warnings : Int := 0
  Checks : List CheckResultWithName := []
  CanDeploy : Bool := false
deriving DecidableEq, Repr

/-- The package variables `environment` and `projectID`, read once from
`APP_ENV` (default "dev") and `GCP_PROJECT_ID` (default ""). -/
structure Config where
  environment : String
  projectID : String
deriving DecidableEq, Repr

/-- The function `getEnv`: the value of the variable, or the default when the
variable is unset or empty (`os.Getenv` returns "" for an unset variable). -/
def getEnv (osGetenv : String → String) (key defaultValue : String) : String :=
  let value := osGetenv key
  if value ≠ "" then value else defaultValue

/-- The initialisation of the package variables. -/
def loadConfig (osGetenv : String → String) : Config :=
  { environment := getEnv osGetenv "APP_ENV" "dev"
    projectID := getEnv osGetenv "GCP_PROJECT_ID" "" }

/-! ## Library functions used by the probes -/

/-- A non-nil Go `error`: the text `err.Error()` returns, and whether
`os.IsNotExist` reports it as a does-not-exist error. -/
structure GoError where
  text : String
  notExist : Bool := false
deriving DecidableEq, Repr

/-- The function `os.IsNotExist`: false on the nil error. -/
def IsNotExist (err : Option GoError) : Bool :=
  match err with
  | none => false
  | some e => e.notExist

/-- The builtin `len` on a string: its number of bytes. -/
def len (s : String) : Nat := s.utf8ByteSize

/-- The function `strings.HasPrefix`. -/
def HasPrefix (s pre : String) : Bool :=
  pre.toList.isPrefixOf s.toList

/-- The function `unicode.IsSpace`: the characters with the Unicode
White_Space property. -/
def IsSpace (c : Char) : Bool :=
  let n := c.toNat
  (9 ≤ n && n ≤ 13) || n = 0x20 || n = 0x85 || n = 0xA0 || n = 0x1680 ||
    (0x2000 ≤ n && n ≤ 0x200A) || n = 0x2028 || n = 0x2029 || n = 0x202F ||
    n = 0x205F || n = 0x3000

/-- The function `strings.TrimSpace`: all leading and trailing white space
removed. -/
def TrimSpace (s : String) : String :=
  String.mk ((((s.toList.dropWhile IsSpace).reverse).dropWhile IsSpace).reverse)

/-- Splitting a character list at every occurrence of `sep`; the result is
never empty, a list without `sep` gives the list itself as only piece. -/
def splitChars (sep : Char) : List Char → List (List Char)
  | [] => [[]]
  | c :: cs =>
    if c = sep then
      [] :: splitChars sep cs
    else
      match splitChars sep cs with
      | [] => [[c]]
      | w :: ws => (c :: w) :: ws

/-- The function `strings.Split` for a separator of one character, the only
kind the source uses (`"\n"`). -/
def Split (s : String) (sep : Char) : List String :=
  (splitChars sep s.toList).map String.mk

/-- The function `strings.Join`. -/
def Join (elems : List String) (sep : String) : String :=
  sep.intercalate elems

/-- The outcome of every external call a probe makes.

* `lookPath file`: the error of `exec.LookPath(file)`;
* `exec argv`: standard output and error of running the command `argv`
  under its timeout (`cmd.Output()`; `cmd.Run()` is its error alone). A
  timeout is an error like any other;
* `stat name`: the error of `os.Stat(name)`;
* `unmarshalVersion out`: `json.Unmarshal(out, &versionInfo)`, `none` when it
  returns an error and otherwise the field `terraform_version` it stored. -/
structure World where
  lookPath : String → Option GoError
  exec : List String → String × Option GoError
  stat : String → Option GoError
  unmarshalVersion : String → Option String

/-! ## The probes (main.go, lines 225-482) -/

def checkGcloudInstalled (w : World) : CheckResult :=
  match w.lookPath "gcloud" with
  | some _ =>
    { Passed := false
      Message := "gcloud CLI not found"
      Details := "Install from: https://cloud.google.com/sdk/docs/install" }
  | none =>
    { Passed := true
      Message := "gcloud CLI is installed" }

def checkGcloudAuthenticated (w : World) : CheckResult :=
  let (output, err) :=
    w.exec ["gcloud", "auth", "list", "--filter=status:ACTIVE", "--format=value(account)"]
  if err ≠ none ∨ len (TrimSpace output) = 0 then
    { Passed := false
      Message := "gcloud not authenticated"
      Details := "Run: gcloud auth login" }
  else
    let account := TrimSpace output
    { Passed := true
      Message := "gcloud is authenticated"
      Details := "Active account: " ++ account }

def checkTerraformInstalled (w : World) : CheckResult :=
  match w.lookPath "terraform" with
  | some _ =>
    { Passed := false
      Message := "Terraform not found"
      Details := "Install from: https://www.terraform.io/downloads" }
  | none =>
    { Passed := true
      Message := "Terraform is installed" }

def checkTerraformVersion (w : World) : CheckResult :=
  let (output, err) := w.exec ["terraform", "version", "-json"]
  match err with
  | some e =>
    { Passed := false
      Message := "Could not check Terraform version"
      Details := e.text }
  | none =>
    match w.unmarshalVersion output with
    | none =>
      { Passed := false
        Message := "Could not parse Terraform version" }
    | some TerraformVersion =>
      -- Simple version check (should be >= 1.5.0)
      if HasPrefix TerraformVersion "1.5" ||
          HasPrefix TerraformVersion "1.6" ||
          HasPrefix TerraformVersion "1.7" ||
          HasPrefix TerraformVersion "1.8" ||
          HasPrefix TerraformVersion "1.9" then
        { Passed := true
          Message := "Terraform version is compatible"
          Details := "Version: " ++ TerraformVersion }
      else
        { Passed := false
          Message := "Terraform version too old"
          Details := "Found: " ++ TerraformVersion ++ ", Required: >= 1.5.0" }

def checkProjectIDSet (cfg : Config) : CheckResult :=
  if cfg.projectID = "" then
    { Passed := false
      Message := "GCP_PROJECT_ID not set"
      Details := "Set in .env or environment" }
  else
    { Passed := true
      Message := "GCP_PROJECT_ID is set"
      Details := "Project: " ++ cfg.projectID }

/-- The list `requiredAPIs` of `checkRequiredAPIs`. -/
def requiredAPIs : List String :=
  [ "run.googleapis.com"
  , "sqladmin.googleapis.com"
  , "storage-api.googleapis.com" ]

/-- The map `enabledMap` of `checkRequiredAPIs` after its filling loop: a Go
`map[string]bool` read at a key, false at a key never stored. -/
def enabledMap (enabledAPIs : List String) (key : String) : Bool :=
  enabledAPIs.foldl (fun m api => fun k => if k = TrimSpace api then true else m k)
    (fun _ => false) key

def checkRequiredAPIs (cfg : Config) (w : World) : CheckResult :=
  if cfg.projectID = "" then
    { Passed := false
      Message := "Cannot check APIs - project ID not set" }
  else
    let (output, err) :=
      w.exec ["gcloud", "services", "list", "--enabled", "--project=" ++ cfg.projectID,
        "--format=value(name)"]
    match err with
    | some _ =>
      { Passed := false
        Message := "Could not check enabled APIs"
        Details := "Ensure you have permission to list services" }
    | none =>
      let enabledAPIs := Split output '\n'
      let missing := requiredAPIs.filter (fun api => !enabledMap enabledAPIs api)
      if missing.length > 0 then
        { Passed := false
          Message := "Required APIs not enabled"
          Details := "Missing: " ++ Join missing ", " }
      else
        { Passed := true
          Message := "Required APIs are enabled" }

def checkStateBucketExists (cfg : Config) (w : World) : CheckResult :=
  if cfg.projectID = "" then
    { Passed := false
      Message := "Cannot check state bucket - project ID not set" }
  else
    let bucketName := "keystone-terraform-state-" ++ cfg.environment
    match (w.exec ["gsutil", "ls", "-b", "gs://" ++ bucketName]).2 with
    | some _ =>
      { Passed := false
        Message := "Terraform state bucket does not exist"
        Details := "Create with: gsutil mb gs://" ++ bucketName }
    | none =>
      { Passed := true
        Message := "Terraform state bucket exists"
        Details := "Bucket: gs://" ++ bucketName }

def checkBackupBucketExists (w : World) : CheckResult :=
  let bucketName := "keystone-backups"
  match (w.exec ["gsutil", "ls", "-b", "gs://" ++ bucketName]).2 with
  | some _ =>
    { Passed := false
      Message := "Backup bucket does not exist"
      Details := "Create with: gsutil mb gs://" ++ bucketName }
  | none =>
    { Passed := true
      Message := "Backup bucket exists" }

def checkEnvFileExists (w : World) : CheckResult :=
  if IsNotExist (w.stat ".env") then
    { Passed := false
      Message := ".env file not found"
      Details := "Copy from .env.example and configure" }
  else
    { Passed := true
      Message := ".env file exists" }

def checkTerraformFormatted (w : World) : CheckResult :=
  match (w.exec ["terraform", "fmt", "-check", "-recursive", "terraform/"]).2 with
  | some _ =>
    { Passed := false
      Message := "Terraform files not formatted"
      Details := "Run: terraform fmt -recursive terraform/" }
  | none =>
    { Passed := true
      Message := "Terraform files are formatted" }

/-- The slice `checks` built by `main` (lines 57-118). -/
def registeredChecks (cfg : Config) (w : World) : List PreflightCheck :=
  [ { Name := "gcloud-installed"
      Description := "gcloud CLI is installed"
      Required := true
      Check := fun _ => checkGcloudInstalled w }
  , { Name := "gcloud-authenticated"
      Description := "gcloud is authenticated"
      Required := true
      Check := fun _ => checkGcloudAuthenticated w }
  , { Name := "terraform-installed"
      Description := "Terraform is installed"
      Required := true
      Check := fun _ => checkTerraformInstalled w }
  , { Name := "terraform-version"
      Description := "Terraform version >= 1.5.0"
      Required := true
      Check := fun _ => checkTerraformVersion w }
  , { Name := "project-id-set"
      Description := "GCP_PROJECT_ID is set"
      Required := true
      Check := fun _ => checkProjectIDSet cfg }
  , { Name := "required-apis"
      Description := "Required GCP APIs are enabled"
      Required := true
      Check := fun _ => checkRequiredAPIs cfg w }
  , { Name := "state-bucket-exists"
      Description := "Terraform state bucket exists"
      Required := true
      Check := fun _ => checkStateBucketExists cfg w }
  , { Name := "backup-bucket-exists"
      Description := "Backup bucket exists"
      Required := false
      Check := fun _ => checkBackupBucketExists w }
  , { Name := "env-file-exists"
      Description := ".env file is configured"
      Required := false
      Check := fun _ => checkEnvFileExists w }
  , { Name := "terraform-formatted"
      Description := "Terraform files are formatted"
      Required := false
      Check := fun _ => checkTerraformFormatted w } ]

/-! ## The runner (main.go, lines 134-168) -/

/-- One iteration of the loop of `runChecks` (lines 142-162): run the probe,
append the named result, bump exactly one counter. -/
def runChecksStep (report : PreflightReport) (check : PreflightCheck) : PreflightReport :=
  let result := check.Check ()
  let checkResult : CheckResultWithName :=
    { Name := check.Name, Required := check.Required, Result := result }
  let report := { report with Checks := report.Checks ++ [checkResult] }
  if result.Passed then
    { report with Passed := report.Passed + 1 }
  else
    if check.Required then
      { report with Failed := report.Failed + 1 }
    else
      { report with Warnings := report.Warnings + 1 }

/-- The function `runChecks`: the report is initialised with the timestamp,
the environment and the number of checks, the loop runs over the checks in
order, and `CanDeploy` is set last. -/
def runChecks (now : Nat) (environment : String) (checks : List PreflightCheck) :
    PreflightReport :=
  let report : PreflightReport :=
    { Timestamp := now
      Environment := environment
      TotalChecks := (checks.length : Int)
      Checks := [] }
  let report := checks.foldl runChecksStep report
  { report with CanDeploy := decide (report.Failed = 0) }

/-- The exit status of `main` (lines 128-131): `os.Exit(1)` when the report
cannot deploy, the normal status 0 otherwise. -/
def exitCode (report : PreflightReport) : Nat :=
  if !report.CanDeploy then 1 else 0

/-- The function `main` up to its exit status: the package variables are
read from the process environment, the ten checks are run and the status is
computed from the report. -/
def main (osGetenv : String → String) (w : World) (now : Nat) : Nat :=
  let cfg := loadConfig osGetenv
  let report := runChecks now cfg.environment (registeredChecks cfg w)
  exitCode report

/-! ## Semantic versions, as the description of the check words them

The check `terraform-version` is described as "Terraform version >= 1.5.0".
The definitions of this section do not come from the code: they say what a
well-formed MAJOR.MINOR.PATCH version is and how two of them compare, to
set against what `checkTerraformVersion` computes. -/

/-- A numeric identifier: a non-empty run of decimal digits without a leading
zero, apart from "0" itself. -/
def parseNumeric (cs : List Char) : Option Nat :=
  if cs = [] then none
  else if cs.all Char.isDigit = false then none
  else if cs.head? = some '0' ∧ cs.length ≠ 1 then none
  else some (cs.foldl (fun n c => 10 * n + (c.toNat - '0'.toNat)) 0)

/-- A well-formed MAJOR.MINOR.PATCH version as its three numbers. -/
def parseVersion (v : String) : Option (Nat × Nat × Nat) :=
  match splitChars '.' v.toList with
  | [a, b, c] =>
    match parseNumeric a, parseNumeric b, parseNumeric c with
    | some x, some y, some z => some (x, y, z)
    | _, _, _ => none
  | _ => none

/-- Semantic-version order: `a >= b`, comparing major, then minor, then patch. -/
def versionGE (a b : Nat × Nat × Nat) : Bool :=
  decide (a.1 > b.1) ||
    (decide (a.1 = b.1) && (decide (a.2.1 > b.2.1) ||
      (decide (a.2.1 = b.2.1) && decide (a.2.2 ≥ b.2.2))))

/-! ## Vocabulary of the statements -/

/-- The probe of the check returned `Passed = true`. -/
def passes (c : PreflightCheck) : Bool := (c.Check ()).Passed

/-- The check is required and its probe returned `Passed = false`. -/
def failsRequired (c : PreflightCheck) : Bool := c.Required && !(c.Check ()).Passed

/-- The check is optional and its probe returned `Passed = false`. -/
def failsOptional (c : PreflightCheck) : Bool := !c.Required && !(c.Check ()).Passed

/-- The entry of `report.Checks` a check stands for: its name, its required
flag and the result its probe returned. -/
def namedResult (c : PreflightCheck) : CheckResultWithName :=
  { Name := c.Name, Required := c.Required, Result := c.Check () }

/-! ## Sample checks, used to instantiate the statements -/

/-- A required check whose probe fails. -/
def sampleRequiredFailing : PreflightCheck :=
  { Name := "terraform-installed"
    Description := "Terraform is installed"
    Required := true
    Check := fun _ => { Passed := false, Message := "Terraform not found" } }

/-- An optional check whose probe fails. -/
def sampleOptionalFailing : PreflightCheck :=
  { Name := "env-file-exists"
    Description := ".env file is configured"
    Required := false
    Check := fun _ => { Passed := false, Message := ".env file not found" } }

/-- An optional check whose probe passes. -/
def sampleOptionalPassing : PreflightCheck :=
  { Name := "env-file-exists"
    Description := ".env file is configured"
    Required := false
    Check := fun _ => { Passed := true, Message := ".env file exists" } }

/-! ## Sample machines, used to instantiate the statements -/

/-- A machine on which Terraform 1.10.0 is installed: every external call
succeeds, and the JSON printed by `terraform version -json` holds the version
"1.10.0". -/
def terraform_1_10_0 : World :=
  { lookPath := fun _ => none
    exec := fun argv =>
      if argv = ["terraform", "version", "-json"] then
        ("\x7b\"terraform_version\": \"1.10.0\"\x7d", none)
      else ("", none)
    stat := fun _ => none
    unmarshalVersion := fun out =>
      if out = "\x7b\"terraform_version\": \"1.10.0\"\x7d" then some "1.10.0" else none }

/-- A machine on which `os.Stat(".env")` fails with a permission error, an
error that `os.IsNotExist` does not report as does-not-exist. -/
def statPermissionDenied : World :=
  { lookPath := fun _ => none
    exec := fun _ => ("", none)
    stat := fun _ => some { text := "stat .env: permission denied", notExist := false }
    unmarshalVersion := fun _ => none }

/-- A machine on which `gcloud services list` succeeds and prints one
enabled service only, `run.googleapis.com`. -/
def oneServiceEnabled : World :=
  { lookPath := fun _ => none
    exec := fun _ => ("run.googleapis.com\n", none)
    stat := fun _ => none
    unmarshalVersion := fun _ => none }

/-- A machine on which every external command succeeds and
`gcloud services list` prints the three required services. -/
def allServicesEnabled : World :=
  { lookPath := fun _ => none
    exec := fun _ =>
      ("run.googleapis.com\nsqladmin.googleapis.com\nstorage-api.googleapis.com\n", none)
    stat := fun _ => none
    unmarshalVersion := fun _ => none }

/-! ## The loop of `runChecks` -/

theorem runChecksStep_eq (r : PreflightReport) (c : PreflightCheck) :
    runChecksStep r c =
      { r with
        Passed := r.Passed + (if passes c then 1 else 0)
        Failed := r.Failed + (if failsRequired c then 1 else 0)
        Warnings := r.Warnings + (if failsOptional c then 1 else 0)
        Checks := r.Checks ++ [namedResult c] } := by
  unfold runChecksStep passes failsRequired failsOptional namedResult
  cases hp : (c.Check ()).Passed <;> cases hr : c.Required <;> simp [hp, hr]

theorem foldl_runChecksStep (cs : List PreflightCheck) (r : PreflightReport) :
    cs.foldl runChecksStep r =
      { r with
        Passed := r.Passed + (cs.countP passes : Nat)
        Failed := r.Failed + (cs.countP failsRequired : Nat)
        Warnings := r.Warnings + (cs.countP failsOptional : Nat)
        Checks := r.Checks ++ cs.map namedResult } := by
  induction cs generalizing r with
  | nil => simp
  | cons c cs ih =>
    rw [List.foldl_cons, ih, runChecksStep_eq]
    simp only [List.countP_cons, List.map_cons, List.append_assoc, List.singleton_append,
      Nat.cast_add, Nat.cast_ite, Nat.cast_one, Nat.cast_zero]
    congr 1 <;> omega

theorem runChecks_eq (now : Nat) (environment : String) (checks : List PreflightCheck) :
    runChecks now environment checks =
      { Timestamp := now
        Environment := environment
        TotalChecks := (checks.length : Int)
        Passed := (checks.countP passes : Nat)
        Failed := (checks.countP failsRequired : Nat)
        Warnings := (checks.countP failsOptional : Nat)
        Checks := checks.map namedResult
        CanDeploy := decide (checks.countP failsRequired = 0) } := by
  unfold runChecks
  simp only [foldl_runChecksStep]
  simp

/-- Every check is counted in exactly one of the three classes. -/
theorem countP_classes (cs : List PreflightCheck) :
    cs.countP passes + cs.countP failsRequired + cs.countP failsOptional = cs.length := by
  induction cs with
  | nil => simp
  | cons c cs ih =>
    simp only [List.countP_cons, List.length_cons]
    have : (if passes c = true then 1 else 0) + (if failsRequired c = true then 1 else 0)
        + (if failsOptional c = true then 1 else 0) = 1 := by
      unfold passes failsRequired failsOptional
      cases (c.Check ()).Passed <;> cases c.Required <;> simp
    omega

/-- The number of failing required checks depends only on the required flags
and on the outcomes of the required checks. -/
theorem countP_failsRequired_congr (cs cs' : List PreflightCheck)
    (h : List.Forall₂ (fun c c' => c'.Required = c.Required ∧
      (c.Required = true → (c'.Check ()).Passed = (c.Check ()).Passed)) cs cs') :
    cs'.countP failsRequired = cs.countP failsRequired := by
  induction h with
  | nil => rfl
  | @cons c c' l l' hc _ ih =>
    have hf : failsRequired c' = failsRequired c := by
      unfold failsRequired
      obtain ⟨h1, h2⟩ := hc
      cases hr : c.Required
      · simp [h1, hr]
      · simp [h1, hr, h2 hr]
    simp only [List.countP_cons, ih, hf]

/-! ## The runner: claims C1 to C5 and C10 -/

/-- C1: for every sequence of checks the report of `runChecks` has
`TotalChecks = len(checks)` and `Passed + Failed + Warnings = TotalChecks`. -/
theorem runChecks_totals (now : Nat) (environment : String) (checks : List PreflightCheck) :
    (runChecks now environment checks).TotalChecks = (checks.length : Int) ∧
    (runChecks now environment checks).Passed + (runChecks now environment checks).Failed
        + (runChecks now environment checks).Warnings
      = (runChecks now environment checks).TotalChecks := by
  rw [runChecks_eq]
  refine ⟨rfl, ?_⟩
  have h := countP_classes checks
  show ((checks.countP passes : Nat) : Int) + (checks.countP failsRequired : Nat)
    + (checks.countP failsOptional : Nat) = (checks.length : Int)
  omega

/-- C2: `Passed` is the number of checks whose probe passed, `Failed` the
number of required checks whose probe did not pass, `Warnings` the number of
optional checks whose probe did not pass; and in one iteration of the loop a
failing required check adds one to `Failed` and leaves `Warnings` alone, a
failing optional check adds one to `Warnings` and leaves `Failed` alone. -/
theorem runChecks_counts (now : Nat) (environment : String) (checks : List PreflightCheck) :
    (runChecks now environment checks).Passed
      = (checks.countP (fun c => (c.Check ()).Passed) : Nat) ∧
    (runChecks now environment checks).Failed
      = (checks.countP (fun c => c.Required && !(c.Check ()).Passed) : Nat) ∧
    (runChecks now environment checks).Warnings
      = (checks.countP (fun c => !c.Required && !(c.Check ()).Passed) : Nat) ∧
    (∀ (r : PreflightReport) (c : PreflightCheck),
      c.Required = true → (c.Check ()).Passed = false →
        (runChecksStep r c).Failed = r.Failed + 1 ∧
        (runChecksStep r c).Warnings = r.Warnings ∧
        (runChecksStep r c).Passed = r.Passed) ∧
    (∀ (r : PreflightReport) (c : PreflightCheck),
      c.Required = false → (c.Check ()).Passed = false →
        (runChecksStep r c).Warnings = r.Warnings + 1 ∧
        (runChecksStep r c).Failed = r.Failed ∧
        (runChecksStep r c).Passed = r.Passed) := by
  rw [runChecks_eq]
  refine ⟨rfl, rfl, rfl, ?_, ?_⟩
  · intro r c hr hp
    simp [runChecksStep, hr, hp]
  · intro r c hr hp
    simp [runChecksStep, hr, hp]

/-- Instance of C2: one failing required check and one failing optional check
give `Failed = 1` and `Warnings = 1`. -/
theorem runChecks_counts_witness :
    (runChecks 0 "dev" [sampleRequiredFailing, sampleOptionalFailing]).Failed = 1 ∧
    (runChecks 0 "dev" [sampleRequiredFailing, sampleOptionalFailing]).Warnings = 1 ∧
    (runChecksStep { Timestamp := 0, Environment := "dev" } sampleRequiredFailing).Warnings
      = 0 := by
  have h := runChecks_counts 0 "dev" [sampleRequiredFailing, sampleOptionalFailing]
  refine ⟨?_, ?_, ?_⟩
  · rw [h.2.1]; decide
  · rw [h.2.2.1]; decide
  · exact (h.2.2.2.1 { Timestamp := 0, Environment := "dev" } sampleRequiredFailing
      rfl rfl).2.1

/-- C3: the report of `runChecks` has `CanDeploy = (Failed == 0)`, an equation
in which `Warnings` does not occur, and the empty sequence gives
`CanDeploy = true`. -/
theorem runChecks_canDeploy (now : Nat) (environment : String)
    (checks : List PreflightCheck) :
    (runChecks now environment checks).CanDeploy
      = decide ((runChecks now environment checks).Failed = 0) ∧
    (runChecks now environment []).CanDeploy = true := by
  constructor
  · rw [runChecks_eq]
    simp
  · rfl

/-- No required check fails exactly when every required check passes. -/
theorem countP_failsRequired_eq_zero (cs : List PreflightCheck) :
    cs.countP failsRequired = 0 ↔ ∀ c ∈ cs, c.Required = true → (c.Check ()).Passed = true := by
  rw [List.countP_eq_zero]
  constructor
  · intro h c hc hr
    have := h c hc
    unfold failsRequired at this
    simpa [hr] using this
  · intro h c hc
    unfold failsRequired
    have := h c hc
    cases hr : c.Required
    · simp
    · simp [this hr]

/-- C4: `CanDeploy` is true exactly when the probe of every required check
passed; a failing required check forces `Failed >= 1` and `CanDeploy = false`
whatever the other checks do; a sequence that differs from `checks` only in
the outcomes of optional checks has the same `CanDeploy` and the same exit
code; and the exit code is 1 exactly when `CanDeploy` is false. -/
theorem runChecks_canDeploy_iff (now : Nat) (environment : String)
    (checks : List PreflightCheck) :
    ((runChecks now environment checks).CanDeploy = true ↔
      ∀ c ∈ checks, c.Required = true → (c.Check ()).Passed = true) ∧
    (∀ c ∈ checks, c.Required = true → (c.Check ()).Passed = false →
      1 ≤ (runChecks now environment checks).Failed ∧
      (runChecks now environment checks).CanDeploy = false ∧
      exitCode (runChecks now environment checks) = 1) ∧
    (∀ checks' : List PreflightCheck,
      List.Forall₂ (fun c c' => c'.Required = c.Required ∧
        (c.Required = true → (c'.Check ()).Passed = (c.Check ()).Passed)) checks checks' →
      (runChecks now environment checks').CanDeploy
        = (runChecks now environment checks).CanDeploy ∧
      exitCode (runChecks now environment checks')
        = exitCode (runChecks now environment checks)) ∧
    (exitCode (runChecks now environment checks) = 1 ↔
      (runChecks now environment checks).CanDeploy = false) ∧
    (exitCode (runChecks now environment checks) = 0 ↔
      (runChecks now environment checks).CanDeploy = true) := by
  have hiff : (runChecks now environment checks).CanDeploy = true ↔
      ∀ c ∈ checks, c.Required = true → (c.Check ()).Passed = true := by
    rw [runChecks_eq]
    simp only [decide_eq_true_eq]
    exact countP_failsRequired_eq_zero checks
  refine ⟨hiff, ?_, ?_, ?_, ?_⟩
  · intro c hc hr hp
    have hpos : 0 < checks.countP failsRequired := by
      rw [List.countP_pos_iff]
      exact ⟨c, hc, by simp [failsRequired, hr, hp]⟩
    have hcd : (runChecks now environment checks).CanDeploy = false := by
      rw [runChecks_eq]
      simp only [decide_eq_false_iff_not]
      omega
    refine ⟨?_, hcd, ?_⟩
    · rw [runChecks_eq]
      show (1 : Int) ≤ ((checks.countP failsRequired : Nat) : Int)
      omega
    · simp [exitCode, hcd]
  · intro checks' h
    have hc := countP_failsRequired_congr checks checks' h
    have hcd : (runChecks now environment checks').CanDeploy
        = (runChecks now environment checks).CanDeploy := by
      rw [runChecks_eq, runChecks_eq]
      simp only [hc]
    exact ⟨hcd, by simp [exitCode, hcd]⟩
  · cases h : (runChecks now environment checks).CanDeploy <;> simp [exitCode, h]
  · cases h : (runChecks now environment checks).CanDeploy <;> simp [exitCode, h]

/-- Instance of C4: next to a failing required check, an optional check that
fails and one that passes give the same verdict, `CanDeploy = false`, and the
same exit code 1. -/
theorem runChecks_canDeploy_iff_witness :
    (runChecks 0 "dev" [sampleRequiredFailing, sampleOptionalFailing]).CanDeploy = false ∧
    exitCode (runChecks 0 "dev" [sampleRequiredFailing, sampleOptionalFailing]) = 1 ∧
    (runChecks 0 "dev" [sampleRequiredFailing, sampleOptionalPassing]).CanDeploy
      = (runChecks 0 "dev" [sampleRequiredFailing, sampleOptionalFailing]).CanDeploy := by
  have h := runChecks_canDeploy_iff 0 "dev" [sampleRequiredFailing, sampleOptionalFailing]
  have h1 := h.2.1 sampleRequiredFailing (List.mem_cons_self _ _) rfl rfl
  have h2 := h.2.2.1 [sampleRequiredFailing, sampleOptionalPassing]
    (List.Forall₂.cons ⟨rfl, fun _ => rfl⟩
      (List.Forall₂.cons ⟨rfl, fun hr => Bool.noConfusion hr⟩ List.Forall₂.nil))
  exact ⟨h1.2.1, h1.2.2, h2.1⟩

/-- C5: `report.Checks` has one entry per check, in the order of `checks`:
entry `i` carries the name and the required flag of `checks[i]` and the result
its probe returned, whatever the outcomes of the checks before it. -/
theorem runChecks_checks (now : Nat) (environment : String) (checks : List PreflightCheck) :
    (runChecks now environment checks).Checks.length = checks.length ∧
    (runChecks now environment checks).Checks
      = checks.map (fun c => { Name := c.Name, Required := c.Required, Result := c.Check () }) ∧
    (∀ (i : Nat) (c : PreflightCheck), checks[i]? = some c →
      (runChecks now environment checks).Checks[i]?
        = some { Name := c.Name, Required := c.Required, Result := c.Check () }) := by
  rw [runChecks_eq]
  refine ⟨by simp, rfl, ?_⟩
  intro i c hi
  simp [List.getElem?_map, hi, namedResult]

/-- Instance of C5: after a failing required check the next check still
contributes its entry, at index 1. -/
theorem runChecks_checks_witness :
    (runChecks 0 "dev" [sampleRequiredFailing, sampleOptionalPassing]).Checks[1]?
      = some { Name := "env-file-exists", Required := false,
               Result := { Passed := true, Message := ".env file exists" } } :=
  (runChecks_checks 0 "dev" [sampleRequiredFailing, sampleOptionalPassing]).2.2
    1 sampleOptionalPassing rfl

/-- C10: two runs over sequences that are permutations of each other, at any
two times, return the same `TotalChecks`, `Passed`, `Failed`, `Warnings` and
`CanDeploy`, and their `Checks` hold the same entries in permuted order. The
sequence itself is one of its permutations: running it twice gives identical
counts. -/
theorem runChecks_perm (now now' : Nat) (environment : String)
    (checks checks' : List PreflightCheck) (h : checks.Perm checks') :
    (runChecks now' environment checks').TotalChecks
      = (runChecks now environment checks).TotalChecks ∧
    (runChecks now' environment checks').Passed
      = (runChecks now environment checks).Passed ∧
    (runChecks now' environment checks').Failed
      = (runChecks now environment checks).Failed ∧
    (runChecks now' environment checks').Warnings
      = (runChecks now environment checks).Warnings ∧
    (runChecks now' environment checks').CanDeploy
      = (runChecks now environment checks).CanDeploy ∧
    ((runChecks now environment checks).Checks).Perm
      (runChecks now' environment checks').Checks := by
  rw [runChecks_eq, runChecks_eq]
  simp only [h.length_eq, h.countP_eq, true_and]
  exact h.map namedResult

/-- Instance of C10: swapping two checks, and running at another time, leaves
the counts and the verdict unchanged. -/
theorem runChecks_perm_witness :
    [sampleRequiredFailing, sampleOptionalPassing].Perm
      [sampleOptionalPassing, sampleRequiredFailing] ∧
    (runChecks 1 "dev" [sampleOptionalPassing, sampleRequiredFailing]).Failed
      = (runChecks 0 "dev" [sampleRequiredFailing, sampleOptionalPassing]).Failed ∧
    (runChecks 1 "dev" [sampleOptionalPassing, sampleRequiredFailing]).CanDeploy
      = (runChecks 0 "dev" [sampleRequiredFailing, sampleOptionalPassing]).CanDeploy :=
  ⟨List.Perm.swap _ _ _,
    (runChecks_perm 0 1 "dev" _ _ (List.Perm.swap _ _ _)).2.2.1,
    (runChecks_perm 0 1 "dev" _ _ (List.Perm.swap _ _ _)).2.2.2.2.1⟩

/-! ## The probes: claims C6 to C9 -/

/-- C6: with an empty project identifier the three probes that depend on it
return `Passed = false` with a message saying the project ID is not set,
whatever the external calls would return, and the run of the ten registered
checks has `Failed >= 3` and `CanDeploy = false`. -/
theorem empty_projectID_fails (cfg : Config) (w : World) (now : Nat)
    (h : cfg.projectID = "") :
    checkProjectIDSet cfg =
      { Passed := false
        Message := "GCP_PROJECT_ID not set"
        Details := "Set in .env or environment" } ∧
    checkRequiredAPIs cfg w =
      { Passed := false
        Message := "Cannot check APIs - project ID not set"
        Details := "" } ∧
    checkStateBucketExists cfg w =
      { Passed := false
        Message := "Cannot check state bucket - project ID not set"
        Details := "" } ∧
    3 ≤ (runChecks now cfg.environment (registeredChecks cfg w)).Failed ∧
    (runChecks now cfg.environment (registeredChecks cfg w)).CanDeploy = false := by
  have h1 : checkProjectIDSet cfg =
      { Passed := false, Message := "GCP_PROJECT_ID not set",
        Details := "Set in .env or environment" } := by
    simp [checkProjectIDSet, h]
  have h2 : checkRequiredAPIs cfg w =
      { Passed := false, Message := "Cannot check APIs - project ID not set",
        Details := "" } := by
    simp [checkRequiredAPIs, h]
  have h3 : checkStateBucketExists cfg w =
      { Passed := false, Message := "Cannot check state bucket - project ID not set",
        Details := "" } := by
    simp [checkStateBucketExists, h]
  have hcount : 3 ≤ (registeredChecks cfg w).countP failsRequired := by
    simp only [registeredChecks, List.countP_cons, List.countP_nil, failsRequired, h1, h2, h3]
    simp only [Bool.not_false, Bool.and_self, if_true]
    omega
  refine ⟨h1, h2, h3, ?_, ?_⟩
  · rw [runChecks_eq]
    show (3 : Int) ≤ (((registeredChecks cfg w).countP failsRequired : Nat) : Int)
    omega
  · rw [runChecks_eq]
    simp only [decide_eq_false_iff_not]
    omega

/-- Instance of C6: `GCP_PROJECT_ID` unset, so that `projectID` is empty. -/
theorem empty_projectID_fails_witness :
    (loadConfig (fun _ => "")).projectID = "" ∧
    3 ≤ (runChecks 0 (loadConfig (fun _ => "")).environment
      (registeredChecks (loadConfig (fun _ => "")) allServicesEnabled)).Failed ∧
    (runChecks 0 (loadConfig (fun _ => "")).environment
      (registeredChecks (loadConfig (fun _ => "")) allServicesEnabled)).CanDeploy = false :=
  ⟨rfl, (empty_projectID_fails (loadConfig (fun _ => "")) allServicesEnabled 0 rfl).2.2.2⟩

/-- C7, at version "1.10.0": when `terraform version -json` succeeds and its
output parses to the version "1.10.0", a well-formed version that is
`>= 1.5.0` in semantic-version order, `checkTerraformVersion` returns
`Passed = false` with the message "Terraform version too old". -/
theorem checkTerraformVersion_rejects_1_10_0 (w : World) (output : String)
    (hexec : w.exec ["terraform", "version", "-json"] = (output, none))
    (hjson : w.unmarshalVersion output = some "1.10.0") :
    parseVersion "1.10.0" = some (1, 10, 0) ∧
    versionGE (1, 10, 0) (1, 5, 0) = true ∧
    checkTerraformVersion w =
      { Passed := false
        Message := "Terraform version too old"
        Details := "Found: 1.10.0, Required: >= 1.5.0" } := by
  refine ⟨by decide, by decide, ?_⟩
  unfold checkTerraformVersion
  rw [hexec]
  simp only [hjson]
  decide

/-- Instance of C7 on the machine `terraform_1_10_0`. -/
theorem checkTerraformVersion_rejects_1_10_0_witness :
    (checkTerraformVersion terraform_1_10_0).Passed = false ∧
    (checkTerraformVersion terraform_1_10_0).Message = "Terraform version too old" := by
  have h := (checkTerraformVersion_rejects_1_10_0 terraform_1_10_0
    "\x7b\"terraform_version\": \"1.10.0\"\x7d" (by decide) (by decide)).2.2
  rw [h]
  exact ⟨rfl, rfl⟩

/-- What `checkTerraformVersion` computes once the command succeeded and its
output parsed to `v`: it passes exactly when `v` starts with one of the five
accepted strings. -/
theorem checkTerraformVersion_passed_iff (w : World) (output v : String)
    (hexec : w.exec ["terraform", "version", "-json"] = (output, none))
    (hjson : w.unmarshalVersion output = some v) :
    (checkTerraformVersion w).Passed = true ↔
      (HasPrefix v "1.5" = true ∨ HasPrefix v "1.6" = true ∨ HasPrefix v "1.7" = true ∨
        HasPrefix v "1.8" = true ∨ HasPrefix v "1.9" = true) := by
  unfold checkTerraformVersion
  rw [hexec]
  simp only [hjson]
  split <;> simp_all [or_assoc]

/-- Reading further digits never lowers the number read so far. -/
theorem foldl_digit_ge (cs : List Char) (n : Nat) :
    n ≤ cs.foldl (fun n c => 10 * n + (c.toNat - '0'.toNat)) n := by
  induction cs generalizing n with
  | nil => simp
  | cons c cs ih =>
    rw [List.foldl_cons]
    exact le_trans (by omega) (ih _)

/-- A numeric identifier is at least the value of its first digit. -/
theorem parseNumeric_cons_ge (d : Char) (w : List Char) (y : Nat)
    (h : parseNumeric (d :: w) = some y) : d.toNat - '0'.toNat ≤ y := by
  unfold parseNumeric at h
  split at h
  · simp at h
  · split at h
    · simp at h
    · split at h
      · simp at h
      · simp only [List.foldl_cons, Option.some.injEq] at h
        rw [← h]
        exact le_trans (by omega) (foldl_digit_ge w _)

/-- A well-formed version that starts with "1." followed by the digit `d` has
major number 1 and a minor number of at least the value of `d`. -/
theorem parseVersion_of_start (d : Char) (rest : List Char) (x y z : Nat) (hd : d ≠ '.')
    (h : parseVersion (String.mk ('1' :: '.' :: d :: rest)) = some (x, y, z)) :
    x = 1 ∧ d.toNat - '0'.toNat ≤ y := by
  unfold parseVersion at h
  have hs : splitChars '.' ('1' :: '.' :: d :: rest) =
      ['1'] :: (match splitChars '.' rest with
        | [] => [[d]]
        | w :: ws => (d :: w) :: ws) := by
    simp [splitChars, hd]
  simp only [String.toList, hs] at h
  cases hr : splitChars '.' rest with
  | nil =>
    simp [hr] at h
  | cons w ws =>
    simp only [hr] at h
    match ws, h with
    | [c], h =>
      simp only at h
      have h1 : parseNumeric ['1'] = some 1 := by decide
      rw [h1] at h
      cases hy : parseNumeric (d :: w) with
      | none => simp [hy] at h
      | some y0 =>
        cases hz : parseNumeric c with
        | none => simp [hy, hz] at h
        | some z0 =>
          simp only [hy, hz, Option.some.injEq, Prod.mk.injEq] at h
          obtain ⟨hx, hy', _⟩ := h
          exact ⟨hx.symm, hy' ▸ parseNumeric_cons_ge d w y0 hy⟩
    | [], h => simp at h
    | _ :: _ :: _, h => simp at h

/-- A string with the given start is that start followed by some rest. -/
theorem HasPrefix_eq_true (v pre : String) (h : HasPrefix v pre = true) :
    ∃ rest, v = String.mk (pre.toList ++ rest) := by
  unfold HasPrefix at h
  rw [List.isPrefixOf_iff_prefix] at h
  obtain ⟨rest, hrest⟩ := h
  exact ⟨rest, by rw [hrest]; rfl⟩

/-- Every well-formed version that `checkTerraformVersion` accepts is
`>= 1.5.0`: the check never passes a version that is too old. -/
theorem accepted_version_ge (v : String) (x y z : Nat)
    (hv : parseVersion v = some (x, y, z))
    (hpre : HasPrefix v "1.5" = true ∨ HasPrefix v "1.6" = true ∨ HasPrefix v "1.7" = true ∨
      HasPrefix v "1.8" = true ∨ HasPrefix v "1.9" = true) :
    versionGE (x, y, z) (1, 5, 0) = true := by
  have key : ∀ d : Char, d ≠ '.' → 5 ≤ d.toNat - '0'.toNat →
      ∀ rest, v = String.mk ('1' :: '.' :: d :: rest) → versionGE (x, y, z) (1, 5, 0) = true := by
    intro d hd h5 rest hrest
    rw [hrest] at hv
    obtain ⟨hx, hy⟩ := parseVersion_of_start d rest x y z hd hv
    have hy5 : 5 ≤ y := le_trans h5 hy
    simp only [versionGE, hx]
    by_cases h : y = 5
    · simp [h]
    · have : y > 5 := by omega
      simp [this]
  rcases hpre with h | h | h | h | h
  · obtain ⟨rest, hr⟩ := HasPrefix_eq_true v _ h
    exact key '5' (by decide) (by decide) rest hr
  · obtain ⟨rest, hr⟩ := HasPrefix_eq_true v _ h
    exact key '6' (by decide) (by decide) rest hr
  · obtain ⟨rest, hr⟩ := HasPrefix_eq_true v _ h
    exact key '7' (by decide) (by decide) rest hr
  · obtain ⟨rest, hr⟩ := HasPrefix_eq_true v _ h
    exact key '8' (by decide) (by decide) rest hr
  · obtain ⟨rest, hr⟩ := HasPrefix_eq_true v _ h
    exact key '9' (by decide) (by decide) rest hr

/-- The sibling presence probes pass exactly when their lookup returned no
error: any error of `exec.LookPath`, of whatever kind, fails them. -/
theorem presence_probes_passed_iff (w : World) :
    ((checkGcloudInstalled w).Passed = true ↔ w.lookPath "gcloud" = none) ∧
    ((checkTerraformInstalled w).Passed = true ↔ w.lookPath "terraform" = none) := by
  unfold checkGcloudInstalled checkTerraformInstalled
  constructor <;> split <;> simp_all

/-- C8, at a stat call that fails with a permission error: the call did not
succeed, so the file was not found, and yet `checkEnvFileExists` returns
`Passed = true` with the message ".env file exists". The probe tests
`os.IsNotExist(err)` where its siblings test `err != nil`. -/
theorem checkEnvFileExists_passes_on_other_error :
    statPermissionDenied.stat ".env" ≠ none ∧
    checkEnvFileExists statPermissionDenied =
      { Passed := true, Message := ".env file exists", Details := "" } := by
  decide

/-- What `checkEnvFileExists` computes, for every outcome of the stat call on
".env": `Passed = false` exactly when the call returned an error that
`os.IsNotExist` reports as does-not-exist, so that `Passed = true` covers the
successful call and every other error alike. -/
theorem checkEnvFileExists_passed_iff (w : World) :
    ((checkEnvFileExists w).Passed = false ↔ IsNotExist (w.stat ".env") = true) ∧
    ((checkEnvFileExists w).Passed = true ↔
      (w.stat ".env" = none ∨ ∃ e, w.stat ".env" = some e ∧ e.notExist = false)) := by
  unfold checkEnvFileExists IsNotExist
  cases hs : w.stat ".env" with
  | none => simp
  | some e => cases he : e.notExist <;> simp [he]

/-- The Go map `enabledMap` holds true at a key exactly when the key is the
trimmed form of one of the stored lines. -/
theorem enabledMap_eq_true (enabledAPIs : List String) (key : String) :
    enabledMap enabledAPIs key = true ↔ ∃ line ∈ enabledAPIs, TrimSpace line = key := by
  unfold enabledMap
  have gen : ∀ (l : List String) (m : String → Bool),
      l.foldl (fun m api => fun k => if k = TrimSpace api then true else m k) m key = true ↔
        (m key = true ∨ ∃ line ∈ l, TrimSpace line = key) := by
    intro l
    induction l with
    | nil => intro m; simp
    | cons a l ih =>
      intro m
      rw [List.foldl_cons, ih]
      by_cases hk : key = TrimSpace a
      · simp [hk]
      · have hk' : ¬ TrimSpace a = key := fun h => hk h.symm
        simp [hk, hk']
  simpa using gen enabledAPIs (fun _ => false)

/-- C9, refuted as stated: with the project identifier "keystone-dev", on a
machine where `gcloud services list` succeeds and prints one service only,
the listing command returned no error and yet `checkRequiredAPIs` returns
`Passed = false`. -/
theorem checkRequiredAPIs_fails_on_success :
    (oneServiceEnabled.exec ["gcloud", "services", "list", "--enabled",
      "--project=keystone-dev", "--format=value(name)"]).2 = none ∧
    checkRequiredAPIs { environment := "dev", projectID := "keystone-dev" } oneServiceEnabled =
      { Passed := false
        Message := "Required APIs not enabled"
        Details := "Missing: sqladmin.googleapis.com, storage-api.googleapis.com" } := by
  decide

/-- C9, amended: with a non-empty project identifier, `checkStateBucketExists`
and `checkBackupBucketExists` return `Passed = true` exactly when their
`gsutil ls -b` command returned no error, and `checkRequiredAPIs` returns
`Passed = true` exactly when its `gcloud services list` command returned no
error and each of the three required API names is, once trimmed of white
space, a line of the output. -/
theorem remote_probes_passed_iff (cfg : Config) (w : World) (h : cfg.projectID ≠ "") :
    ((checkStateBucketExists cfg w).Passed = true ↔
      (w.exec ["gsutil", "ls", "-b",
        "gs://" ++ ("keystone-terraform-state-" ++ cfg.environment)]).2 = none) ∧
    ((checkBackupBucketExists w).Passed = true ↔
      (w.exec ["gsutil", "ls", "-b", "gs://keystone-backups"]).2 = none) ∧
    ((checkRequiredAPIs cfg w).Passed = true ↔
      ((w.exec ["gcloud", "services", "list", "--enabled", "--project=" ++ cfg.projectID,
        "--format=value(name)"]).2 = none ∧
       ∀ api ∈ requiredAPIs,
        ∃ line ∈ Split (w.exec ["gcloud", "services", "list", "--enabled",
          "--project=" ++ cfg.projectID, "--format=value(name)"]).1 '\n',
          TrimSpace line = api)) := by
  refine ⟨?_, ?_, ?_⟩
  · unfold checkStateBucketExists
    rw [if_neg h]
    dsimp only
    split <;> simp_all
  · unfold checkBackupBucketExists
    have hname : ("gs://" ++ "keystone-backups" : String) = "gs://keystone-backups" := by
      decide
    dsimp only
    simp only [hname]
    split <;> simp_all
  · unfold checkRequiredAPIs
    rw [if_neg h]
    rcases hx : w.exec ["gcloud", "services", "list", "--enabled",
      "--project=" ++ cfg.projectID, "--format=value(name)"] with ⟨output, err⟩
    cases err with
    | some e => simp
    | none =>
      simp only [true_and]
      have hmissing : (requiredAPIs.filter
          (fun api => !enabledMap (Split output '\n') api)).length > 0 ↔
          ¬ ∀ api ∈ requiredAPIs, ∃ line ∈ Split output '\n', TrimSpace line = api := by
        rw [gt_iff_lt, List.length_pos, ne_eq, List.filter_eq_nil_iff]
        simp only [Bool.not_eq_true', Bool.not_eq_false, enabledMap_eq_true]
      by_cases hall : ∀ api ∈ requiredAPIs, ∃ line ∈ Split output '\n', TrimSpace line = api
      · have hn : ¬ (requiredAPIs.filter
            (fun api => !enabledMap (Split output '\n') api)).length > 0 := by
          rw [hmissing]; exact fun hnot => hnot hall
        simp only [if_neg hn, true_iff]
        exact hall
      · have hp : (requiredAPIs.filter
            (fun api => !enabledMap (Split output '\n') api)).length > 0 :=
          hmissing.mpr hall
        simp only [if_pos hp]
        simp [hall]

/-- Instance of C9: the project identifier "keystone-dev" on a machine where
every command succeeds and the three required services are listed. -/
theorem remote_probes_passed_iff_witness :
    ("keystone-dev" : String) ≠ "" ∧
    (checkStateBucketExists { environment := "dev", projectID := "keystone-dev" }
      allServicesEnabled).Passed = true ∧
    (checkBackupBucketExists allServicesEnabled).Passed = true ∧
    (checkRequiredAPIs { environment := "dev", projectID := "keystone-dev" }
      allServicesEnabled).Passed = true := by
  have h := remote_probes_passed_iff { environment := "dev", projectID := "keystone-dev" }
    allServicesEnabled (by decide)
  exact ⟨by decide, h.1.mpr rfl, h.2.1.mpr rfl, h.2.2.mpr ⟨rfl, by decide⟩⟩

end Preflight
